import Mathlib

/-!
Shallow embedding of the lighthouse-worker pipeline (`src/index.js`).

The repository file contains two variants of the worker, separated by a
document separator:
* variant 1 (in-process `lighthouse` library): `runLighthouse` /
  `saveToGoogleSheets` (10-value row, no link) / `uploadToS3` (date prefix
  computed inside the upload) / `runAndSave` with a `finally` that unlinks
  the HTML report;
* variant 2 (subprocess `lighthouse` CLI): `saveToGoogleSheets` (11-value
  row ending with a report link), the S3 path computed in `runAndSave`,
  the upload call and both `fs.unlink` calls commented out.

JavaScript `undefined`/`null` are modelled by `Option`; the `?? "N/A"`
operator by a match that substitutes the sentinel exactly on `none`.
Scores are rationals (ℚ); the claims never do float arithmetic on them.
External effects (the audit engine, the sheets append, the S3 send, the
file write) are modelled by explicit outcome flags in an environment
record, and each `runAndSave` variant is a pure function from that
environment to an observable trace (rows passed to the append call,
whether the upload was attempted, which working files were created and
which remain after the `finally` block).
-/

namespace LighthouseWorker

/-- A scalar cell of the row passed to the tabular-store append.
JS strings, numbers and `undefined` can all appear in the `values` array. -/
inductive Cell where
  | str (s : String)
  | num (q : ℚ)
  | undef
deriving DecidableEq, Repr

/-- A row passed to `sheets.spreadsheets.values.append`. -/
abbrev Row := List Cell

/-- A category object of the raw lighthouse report: `{ score }` where the
score is a number or `null`. -/
structure RawCategory where
  score : Option ℚ
deriving DecidableEq, Repr

/-- The `categories` object of the raw report; each of the five fixed
categories may be absent (`undefined`). -/
structure RawCategories where
  performance : Option RawCategory
  accessibility : Option RawCategory
  bestPractices : Option RawCategory
  seo : Option RawCategory
  pwa : Option RawCategory
deriving DecidableEq, Repr

/-- The `lhr` object of a lighthouse result: `finalUrl`, `categories` and
`userAgent` may each be absent. -/
structure LHR where
  finalUrl : Option String
  categories : Option RawCategories
  userAgent : Option String
deriving DecidableEq, Repr

/-- Variant 1 lighthouse result: `{ lhr, report }` (the HTML report text
is written to the working file). -/
structure ResultV1 where
  lhr : Option LHR
  report : String
deriving DecidableEq, Repr

/-- Variant 2 lighthouse result: `{ lhr: JSON.parse(jsonContent) }`. -/
structure ResultV2 where
  lhr : Option LHR
deriving DecidableEq, Repr

/-- `result.lhr.categories.X?.score ?? "N/A"` — the substitution performed
in `runAndSave` when wrapping the report for `saveToGoogleSheets`: the
sentinel appears exactly when the category object or its score is
null/undefined. -/
def naScore (c : Option RawCategory) : Cell :=
  match c with
  | some cat =>
    match cat.score with
    | some q => Cell.num q
    | none => Cell.str "N/A"
  | none => Cell.str "N/A"

/-- A wrapped category as built in `runAndSave`: `{ score: <cell> }`. -/
structure WrappedCategory where
  score : Option Cell
deriving DecidableEq, Repr

/-- The wrapped `categories` object passed to `saveToGoogleSheets`. -/
structure WrappedCategories where
  performance : Option WrappedCategory
  accessibility : Option WrappedCategory
  bestPractices : Option WrappedCategory
  seo : Option WrappedCategory
  pwa : Option WrappedCategory
deriving DecidableEq, Repr

/-- The wrapped `lhr` object passed to `saveToGoogleSheets`. -/
structure WrappedLHR where
  finalUrl : Option String
  categories : WrappedCategories
  userAgent : Option String
deriving DecidableEq, Repr

/-- The wrapping performed inside `runAndSave` before calling
`saveToGoogleSheets` (both variants; identical code). -/
def wrapLHR (lhr : LHR) (cats : RawCategories) : WrappedLHR :=
  { finalUrl := lhr.finalUrl
    categories :=
      { performance := some { score := some (naScore cats.performance) }
        accessibility := some { score := some (naScore cats.accessibility) }
        bestPractices := some { score := some (naScore cats.bestPractices) }
        seo := some { score := some (naScore cats.seo) }
        pwa := some { score := some (naScore cats.pwa) } }
    userAgent := lhr.userAgent }

/-- `data.lhr.categories.X?.score ?? "N/A"` as evaluated inside
`saveToGoogleSheets` (both variants). -/
def sheetCell (c : Option WrappedCategory) : Cell :=
  match c with
  | some cat =>
    match cat.score with
    | some v => v
    | none => Cell.str "N/A"
  | none => Cell.str "N/A"

/-- A JS value that is a string or `undefined`, placed into a row cell. -/
def optCell (o : Option String) : Cell :=
  match o with
  | some s => Cell.str s
  | none => Cell.undef

/-- The `data` argument of variant 1's `saveToGoogleSheets`. -/
structure SheetDataV1 where
  date : String
  device : String
  urlKey : String
  lhr : WrappedLHR
deriving DecidableEq, Repr

/-- The `data` argument of variant 2's `saveToGoogleSheets` (adds `link`). -/
structure SheetDataV2 where
  date : String
  device : String
  urlKey : String
  lhr : WrappedLHR
  link : String
deriving DecidableEq, Repr

/-- The `values` row built by variant 1's `saveToGoogleSheets`
(`src/index.js` lines 95-108): ten cells, no artifact link. -/
def sheetRowV1 (d : SheetDataV1) : Row :=
  [Cell.str d.date, Cell.str d.device, Cell.str d.urlKey,
   optCell d.lhr.finalUrl,
   sheetCell d.lhr.categories.performance,
   sheetCell d.lhr.categories.accessibility,
   sheetCell d.lhr.categories.bestPractices,
   sheetCell d.lhr.categories.seo,
   sheetCell d.lhr.categories.pwa,
   optCell d.lhr.userAgent]

/-- The `values` row built by variant 2's `saveToGoogleSheets`
(`src/index.js` lines 392-406): eleven cells ending with `data.link`. -/
def sheetRowV2 (d : SheetDataV2) : Row :=
  [Cell.str d.date, Cell.str d.device, Cell.str d.urlKey,
   optCell d.lhr.finalUrl,
   sheetCell d.lhr.categories.performance,
   sheetCell d.lhr.categories.accessibility,
   sheetCell d.lhr.categories.bestPractices,
   sheetCell d.lhr.categories.seo,
   sheetCell d.lhr.categories.pwa,
   optCell d.lhr.userAgent,
   Cell.str d.link]

/-! ### IdentityDeriver: `hashStringTo12Digits`

`crypto.createHash("sha256").update(input).digest("hex")`, then
`BigInt("0x" + hash)` (the 256-bit digest read as a big-endian integer),
`toString(36)`, `slice(0, 12)`, `padStart(12, "0")`.  SHA-256 is embedded
directly (FIPS 180-4), on `Nat` with explicit reduction mod 2^32. -/

/-- Reduce mod 2^32. -/
def w32 (x : Nat) : Nat := x % 4294967296

/-- 32-bit right rotation (the input is a reduced 32-bit word). -/
def rotr32 (n x : Nat) : Nat := w32 ((x >>> n) ||| (x <<< (32 - n)))

/-- 32-bit bitwise complement. -/
def not32 (x : Nat) : Nat := x ^^^ 4294967295

/-- SHA-256 round constants (FIPS 180-4, written in decimal). -/
def sha256K : List Nat :=
  [1116352408, 1899447441, 3049323471, 3921009573, 961987163, 1508970993,
   2453635748, 2870763221, 3624381080, 310598401, 607225278, 1426881987,
   1925078388, 2162078206, 2614888103, 3248222580, 3835390401, 4022224774,
   264347078, 604807628, 770255983, 1249150122, 1555081692, 1996064986,
   2554220882, 2821834349, 2952996808, 3210313671, 3336571891, 3584528711,
   113926993, 338241895, 666307205, 773529912, 1294757372, 1396182291,
   1695183700, 1986661051, 2177026350, 2456956037, 2730485921, 2820302411,
   3259730800, 3345764771, 3516065817, 3600352804, 4094571909, 275423344,
   430227734, 506948616, 659060556, 883997877, 958139571, 1322822218,
   1537002063, 1747873779, 1955562222, 2024104815, 2227730452, 2361852424,
   2428436474, 2756734187, 3204031479, 3329325298]

/-- SHA-256 initial hash value (FIPS 180-4, written in decimal). -/
def sha256H0 : List Nat :=
  [1779033703, 3144134277, 1013904242, 2773480762,
   1359893119, 2600822924, 528734635, 1541459225]

/-- Lowercase sigma-0 of the message schedule. -/
def schedSigma0 (x : Nat) : Nat := rotr32 7 x ^^^ rotr32 18 x ^^^ (x >>> 3)

/-- Lowercase sigma-1 of the message schedule. -/
def schedSigma1 (x : Nat) : Nat := rotr32 17 x ^^^ rotr32 19 x ^^^ (x >>> 10)

/-- Message schedule: extend the 16 block words to 64. -/
def sha256Schedule (block : List Nat) : Array Nat :=
  (List.range 48).foldl
    (fun w _ =>
      let i := w.size
      w.push (w32 (schedSigma1 (w.getD (i - 2) 0) + w.getD (i - 7) 0 +
        schedSigma0 (w.getD (i - 15) 0) + w.getD (i - 16) 0)))
    block.toArray

/-- One SHA-256 compression round on the (a,b,c,d,e,f,g,h) state. -/
def sha256Round (w : Array Nat)
    (st : Nat × Nat × Nat × Nat × Nat × Nat × Nat × Nat) (i : Nat) :
    Nat × Nat × Nat × Nat × Nat × Nat × Nat × Nat :=
  match st with
  | (a, b, c, d, e, f, g, h) =>
    let s1 := rotr32 6 e ^^^ rotr32 11 e ^^^ rotr32 25 e
    let ch := (e &&& f) ^^^ (not32 e &&& g)
    let t1 := w32 (h + s1 + ch + sha256K.getD i 0 + w.getD i 0)
    let s0 := rotr32 2 a ^^^ rotr32 13 a ^^^ rotr32 22 a
    let mj := (a &&& b) ^^^ (a &&& c) ^^^ (b &&& c)
    let t2 := w32 (s0 + mj)
    (w32 (t1 + t2), a, b, c, w32 (d + t1), e, f, g)

/-- Compress one 16-word block into the running hash. -/
def sha256Compress (hs : List Nat) (block : List Nat) : List Nat :=
  let w := sha256Schedule block
  let init := (hs.getD 0 0, hs.getD 1 0, hs.getD 2 0, hs.getD 3 0,
    hs.getD 4 0, hs.getD 5 0, hs.getD 6 0, hs.getD 7 0)
  match (List.range 64).foldl (sha256Round w) init with
  | (a, b, c, d, e, f, g, h) =>
    [w32 (hs.getD 0 0 + a), w32 (hs.getD 1 0 + b), w32 (hs.getD 2 0 + c),
     w32 (hs.getD 3 0 + d), w32 (hs.getD 4 0 + e), w32 (hs.getD 5 0 + f),
     w32 (hs.getD 6 0 + g), w32 (hs.getD 7 0 + h)]

/-- Big-endian byte expansion of a number to a fixed width. -/
def beBytes : Nat → Nat → List Nat
  | 0, _ => []
  | k + 1, n => beBytes k (n / 256) ++ [n % 256]

/-- SHA-256 message padding: `0x80`, zeros to 56 mod 64, 64-bit bit length. -/
def sha256Pad (msg : List Nat) : List Nat :=
  msg ++ [128] ++ List.replicate ((119 - msg.length % 64) % 64) 0 ++
    beBytes 8 (msg.length * 8)

/-- Pack big-endian bytes into 32-bit words, four at a time. -/
def bytesToWords : List Nat → List Nat
  | a :: b :: c :: d :: rest =>
    (((a * 256 + b) * 256 + c) * 256 + d) :: bytesToWords rest
  | _ => []

/-- Fold the compression over `k` 16-word blocks. -/
def sha256Blocks : Nat → List Nat → List Nat → List Nat
  | 0, hs, _ => hs
  | k + 1, hs, ws => sha256Blocks k (sha256Compress hs (ws.take 16)) (ws.drop 16)

/-- The SHA-256 digest of the UTF-8 bytes of a string, read as the 256-bit
big-endian integer `BigInt("0x" + digestHex)`. -/
def sha256Nat (s : String) : Nat :=
  let bytes := (s.toUTF8.data.toList.map (fun b => b.toNat))
  let ws := bytesToWords (sha256Pad bytes)
  (sha256Blocks (ws.length / 16) sha256H0 ws).foldl
    (fun acc h => acc * 4294967296 + h) 0

/-- The digit alphabet of JavaScript `toString(36)`. -/
def alphabet36 : List Char := "0123456789abcdefghijklmnopqrstuvwxyz".toList

/-- One base-36 digit character. -/
def base36DigitChar (d : Nat) : Char :=
  match alphabet36.get? d with
  | some c => c
  | none => '0'

/-- Base-36 digit expansion, most significant first; the fuel argument is
an upper bound on the number of digits (the value itself suffices). -/
def toBase36Aux : Nat → Nat → List Char
  | 0, _ => []
  | fuel + 1, n =>
    if n = 0 then [] else toBase36Aux fuel (n / 36) ++ [base36DigitChar (n % 36)]

/-- JavaScript `n.toString(36)` for a nonnegative BigInt. -/
def toBase36 (n : Nat) : String :=
  if n = 0 then "0" else String.mk (toBase36Aux n n)

/-- `s.slice(0, 12).padStart(12, "0")`. -/
def padStart12 (s : List Char) : String :=
  String.mk (List.replicate (12 - s.length) '0' ++ s)

/-- `hashStringTo12Digits` (`src/index.js` lines 155-164, identical in both
variants): SHA-256 hex digest as an integer, base 36, first 12 characters,
left-padded with `'0'`. -/
def hashStringTo12Digits (input : String) : String :=
  padStart12 ((toBase36 (sha256Nat input)).toList.take 12)

/-! ### ArtifactNamer: timestamps, file names, storage paths

`startTime.toISOString()` and date-fns `format(new Date(), "yyyy-MM-dd")`
are modelled from epoch milliseconds with the standard civil-from-days
calendar conversion (the worker clock is taken as UTC). -/

/-- Zero-pad a number to two digits. -/
def pad2 (n : Nat) : String := if n < 10 then "0" ++ toString n else toString n

/-- Zero-pad a number to three digits. -/
def pad3 (n : Nat) : String :=
  if n < 10 then "00" ++ toString n
  else if n < 100 then "0" ++ toString n else toString n

/-- Zero-pad a number to four digits. -/
def pad4 (n : Nat) : String :=
  if n < 10 then "000" ++ toString n
  else if n < 100 then "00" ++ toString n
  else if n < 1000 then "0" ++ toString n else toString n

/-- Gregorian (year, month, day) from days since 1970-01-01 (post-epoch). -/
def civilFromDays (z : Nat) : Nat × Nat × Nat :=
  let zShifted := z + 719468
  let era := zShifted / 146097
  let doe := zShifted % 146097
  let yoe := (doe - doe / 1460 + doe / 36524 - doe / 146096) / 365
  let y := yoe + era * 400
  let doy := doe - (365 * yoe + yoe / 4 - yoe / 100)
  let mp := (5 * doy + 2) / 153
  let d := doy - (153 * mp + 2) / 5 + 1
  let m := if mp < 10 then mp + 3 else mp - 9
  (if m ≤ 2 then y + 1 else y, m, d)

/-- JavaScript `new Date(ms).toISOString()` for post-epoch instants. -/
def toISOString (ms : Nat) : String :=
  let msOfDay := ms % 86400000
  match civilFromDays (ms / 86400000) with
  | (y, mo, d) =>
    pad4 y ++ "-" ++ pad2 mo ++ "-" ++ pad2 d ++ "T" ++
    pad2 (msOfDay / 3600000) ++ ":" ++ pad2 (msOfDay % 3600000 / 60000) ++ ":" ++
    pad2 (msOfDay % 60000 / 1000) ++ "." ++ pad3 (msOfDay % 1000) ++ "Z"

/-- date-fns `format(new Date(ms), "yyyy-MM-dd")` (worker clock UTC). -/
def formatDay (ms : Nat) : String :=
  match civilFromDays (ms / 86400000) with
  | (y, mo, d) => pad4 y ++ "-" ++ pad2 mo ++ "-" ++ pad2 d

/-- The display file name
`` `${startTime.toISOString()}-${urlKey}-lighthouse-report-${device}.html` ``
built in `runAndSave` (both variants). -/
def fileNameFor (startISO urlKey device : String) : String :=
  startISO ++ "-" ++ urlKey ++ "-lighthouse-report-" ++ device ++ ".html"

/-- The S3 object key: the archive-day date prefix (computed from the
invocation clock `nowMs`, not from `startedAt`) joined to the display file
name — `path.join(datePrefix, key)` in variant 1's `uploadToS3`,
`` `${datePrefix}/${fileName}` `` in variant 2's `runAndSave`. -/
def s3PathFor (nowMs : Nat) (fileName : String) : String :=
  formatDay nowMs ++ "/" ++ fileName

/-! ### PublishCoordinator: `runAndSave`, both variants

The environment records the outcome of each external call; the result is
the observable trace of one task. -/

/-- `fs.unlink`: remove a path from the set of present working files. -/
def removeFile (files : List String) (f : String) : List String :=
  files.filter (fun g => g ≠ f)

/-- External-call outcomes for one variant-1 task: the lighthouse run
(`none` = the engine threw), the `fs.writeFile` of the HTML report, the
sheets append, and the S3 send. -/
structure EnvV1 where
  auditResult : Option ResultV1
  writeOk : Bool
  sheetOk : Bool
  s3Ok : Bool
deriving DecidableEq, Repr

/-- Observable trace of one variant-1 task. -/
structure OutcomeV1 where
  /-- rows passed to `sheets.spreadsheets.values.append` -/
  rowsSent : List Row
  /-- whether `uploadToS3` was invoked -/
  uploadAttempted : Bool
  /-- the S3 key of the invoked upload, when any -/
  uploadKey : Option String
  /-- working files created during the task -/
  filesCreated : List String
  /-- working files still present after the `finally` block -/
  filesRemaining : List String
deriving DecidableEq, Repr

/-- Variant 1 `runAndSave` (`src/index.js` lines 167-242): write the HTML
report, validate `result.lhr`/`categories`, append to sheets, upload to
S3 — all in one `try` whose `catch` only logs — then unconditionally
unlink the report in `finally`. -/
def runAndSaveV1 (url device : String) (startMs nowMs : Nat) (env : EnvV1) :
    OutcomeV1 :=
  let urlKey := hashStringTo12Digits url
  match env.auditResult with
  | none =>
    -- `return` after the lighthouse run failed: nothing written
    { rowsSent := [], uploadAttempted := false, uploadKey := none,
      filesCreated := [], filesRemaining := [] }
  | some result =>
    let startISO := toISOString startMs
    let fileName := fileNameFor startISO urlKey device
    let filePath := "outputs/" ++ fileName
    if env.writeOk then
      let created := [filePath]
      let remaining := removeFile created filePath
      match result.lhr with
      | none =>
        -- "Invalid Lighthouse result structure" thrown, caught, finally
        { rowsSent := [], uploadAttempted := false, uploadKey := none,
          filesCreated := created, filesRemaining := remaining }
      | some lhr =>
        match lhr.categories with
        | none =>
          { rowsSent := [], uploadAttempted := false, uploadKey := none,
            filesCreated := created, filesRemaining := remaining }
        | some cats =>
          let row := sheetRowV1
            { date := startISO, device := device, urlKey := urlKey,
              lhr := wrapLHR lhr cats }
          if env.sheetOk then
            -- append succeeded; `uploadToS3` is reached
            { rowsSent := [row], uploadAttempted := true,
              uploadKey := some (s3PathFor nowMs fileName),
              filesCreated := created, filesRemaining := remaining }
          else
            -- `saveToGoogleSheets` re-threw; the catch skips the upload
            { rowsSent := [row], uploadAttempted := false, uploadKey := none,
              filesCreated := created, filesRemaining := remaining }
    else
      -- `fs.writeFile` threw before creating the report; catch, finally
      { rowsSent := [], uploadAttempted := false, uploadKey := none,
        filesCreated := [], filesRemaining := [] }

/-- External-call outcomes for one variant-2 task: the lighthouse CLI run
(`none` = `exec` reported an error) and the sheets append; `HOST` is the
link host from the environment. -/
structure EnvV2 where
  auditResult : Option ResultV2
  sheetOk : Bool
  host : String
deriving DecidableEq, Repr

/-- Observable trace of one variant-2 task. -/
structure OutcomeV2 where
  rowsSent : List Row
  uploadAttempted : Bool
  filesCreated : List String
  filesRemaining : List String
deriving DecidableEq, Repr

/-- Variant 2 `runAndSave` (`src/index.js` lines 459-546): the CLI writes
`` `${startTime.getTime()}.report.html` `` and `.report.json` into
`outputs/`, the report is validated and appended, the S3 upload call is
commented out, and in `finally` both `fs.unlink` calls are commented out
(the deletion log line still runs). -/
def runAndSaveV2 (url device : String) (startMs nowMs : Nat) (env : EnvV2) :
    OutcomeV2 :=
  let urlKey := hashStringTo12Digits url
  match env.auditResult with
  | none =>
    { rowsSent := [], uploadAttempted := false,
      filesCreated := [], filesRemaining := [] }
  | some result =>
    let startISO := toISOString startMs
    let fileName := fileNameFor startISO urlKey device
    let filePath := "outputs/" ++ toString startMs ++ ".report.html"
    let jsonFilePath := "outputs/" ++ toString startMs ++ ".report.json"
    let created := [filePath, jsonFilePath]
    let link := env.host ++ "/" ++ s3PathFor nowMs fileName
    match result.lhr with
    | none =>
      { rowsSent := [], uploadAttempted := false,
        filesCreated := created, filesRemaining := created }
    | some lhr =>
      match lhr.categories with
      | none =>
        { rowsSent := [], uploadAttempted := false,
          filesCreated := created, filesRemaining := created }
      | some cats =>
        let row := sheetRowV2
          { date := startISO, device := device, urlKey := urlKey,
            lhr := wrapLHR lhr cats, link := link }
        { rowsSent := [row], uploadAttempted := false,
          filesCreated := created, filesRemaining := created }

/-! ### BatchDriver: `processLighthouse`

The `for` loop over the configured URLs runs desktop then mobile for each
URL; the single `try`/`catch` wraps the WHOLE loop, so an error escaping a
task unwinds past the rest of the loop into the catch.  The escape
predicate models a failure escaping `runAndSave` (a programming defect;
the `runAndSave` models above are total, so its normal value is the
constantly-false predicate). -/

/-- The trace of `(url, device)` tasks attempted by `processLighthouse`
(`src/index.js` lines 255-267 and 572-584): execution stops at the first
escaping task because the catch is outside the loop. -/
def batchLoop : List String → (String × String → Bool) → List (String × String)
  | [], _ => []
  | u :: rest, esc =>
    if esc (u, "desktop") then [(u, "desktop")]
    else if esc (u, "mobile") then [(u, "desktop"), (u, "mobile")]
    else (u, "desktop") :: (u, "mobile") :: batchLoop rest esc

/-- The task sequence the spec prescribes: desktop before mobile for each
URL, URLs in configuration order. -/
def taskSeq (urls : List String) : List (String × String) :=
  urls.flatMap (fun u => [(u, "desktop"), (u, "mobile")])

/-- Truncation of a task list at its first escaping task, inclusive: the
behaviour the amended batch-driver claim describes. -/
def stopAtFirstEscape (esc : String × String → Bool) :
    List (String × String) → List (String × String)
  | [] => []
  | t :: ts => if esc t then [t] else t :: stopAtFirstEscape esc ts

/-! ### Concrete example data used by counterexamples -/

/-- A structurally complete category mapping (all five present). -/
def exampleCats : RawCategories :=
  { performance := some { score := some (9/10) }
    accessibility := some { score := some 1 }
    bestPractices := some { score := some (4/5) }
    seo := some { score := some 1 }
    pwa := some { score := some (1/2) } }

/-- A structurally valid report body. -/
def exampleLHR : LHR :=
  { finalUrl := some "https://example1.com/"
    categories := some exampleCats
    userAgent := some "Mozilla/5.0" }

/-! ### Claim theorems -/

/-- Claim C6 (confirmed): the batch executes tasks sequentially in the
order desktop-then-mobile per URL, URLs in configuration order; the trace
of the loop (with no task escaping, which is the normal case since
`runAndSave` contains every failure) is exactly the interleaved task
sequence. -/
theorem c6_task_order (urls : List String) :
    batchLoop urls (fun _ => false) =
      urls.flatMap (fun u => [(u, "desktop"), (u, "mobile")]) := by
  induction urls with
  | nil => rfl
  | cons u rest ih => simp [batchLoop, ih]

/-- Claim C4 counterexample: with two configured URLs and a failure
escaping the very first task, the driver executes only that task — the
remaining three tasks of the batch, although present in the task
sequence, are skipped, contradicting the claim that an escaped failure
never causes the remaining tasks to be skipped. -/
theorem c4_counterexample :
    batchLoop ["https://example1.com", "https://example2.com"]
        (fun t => decide (t = ("https://example1.com", "desktop"))) =
      [("https://example1.com", "desktop")] ∧
    ("https://example2.com", "desktop") ∈
      taskSeq ["https://example1.com", "https://example2.com"] ∧
    ("https://example2.com", "desktop") ∉
      batchLoop ["https://example1.com", "https://example2.com"]
        (fun t => decide (t = ("https://example1.com", "desktop"))) := by
  refine ⟨by decide, by decide, by decide⟩

/-- Claim C4 (amended): a failure escaping a task is caught at the batch
driver (the driver completes normally and logs), but because the
`try`/`catch` wraps the whole loop the driver does not proceed: the
executed trace is the task sequence truncated at the first escaping task,
and every later task is skipped. -/
theorem c4_amended (urls : List String) (esc : String × String → Bool) :
    batchLoop urls esc = stopAtFirstEscape esc (taskSeq urls) := by
  have hcons : ∀ (u : String) (rest : List String),
      taskSeq (u :: rest) = (u, "desktop") :: (u, "mobile") :: taskSeq rest := by
    intro u rest
    simp [taskSeq]
  induction urls with
  | nil => rfl
  | cons u rest ih =>
    rw [hcons]
    by_cases h1 : esc (u, "desktop")
    · simp [batchLoop, stopAtFirstEscape, h1]
    · by_cases h2 : esc (u, "mobile") <;>
        simp [batchLoop, stopAtFirstEscape, h1, h2, ih]

/-- Claim C1 counterexample: a task with a structurally valid report whose
tabular append fails does NOT attempt the artifact upload — the append
failure re-thrown by `saveToGoogleSheets` is caught by the `catch` that
also guards the `uploadToS3` call, so the upload is skipped. -/
theorem c1_counterexample :
    (runAndSaveV1 "https://example1.com" "desktop" 1714557600000 1714557600000
      { auditResult := some { lhr := some exampleLHR, report := "<html>" },
        writeOk := true, sheetOk := false, s3Ok := true }).uploadAttempted
      = false := by
  rfl

/-- Claim C1 (amended): when the tabular append fails the coordinator
logs the failure but skips the artifact upload — the upload is attempted
exactly when the audit, the report file write, the structural validation
and the append all succeeded; in the subprocess variant the upload is
never attempted at all (the call is commented out). -/
theorem c1_amended :
    (∀ (url device : String) (startMs nowMs : Nat) (env : EnvV1),
      (runAndSaveV1 url device startMs nowMs env).uploadAttempted = true ↔
        env.writeOk = true ∧ env.sheetOk = true ∧
        ∃ r lhr cats, env.auditResult = some r ∧ r.lhr = some lhr ∧
          lhr.categories = some cats) ∧
    (∀ (url device : String) (startMs nowMs : Nat) (env : EnvV2),
      (runAndSaveV2 url device startMs nowMs env).uploadAttempted = false) := by
  constructor
  · intro url device startMs nowMs env
    obtain ⟨ar, w, sh, s3⟩ := env
    cases ar with
    | none => simp [runAndSaveV1]
    | some r =>
      obtain ⟨lhrOpt, rep⟩ := r
      cases w
      · simp [runAndSaveV1]
      · cases lhrOpt with
        | none => simp [runAndSaveV1]
        | some lhr =>
          obtain ⟨fu, catsOpt, ua⟩ := lhr
          cases catsOpt with
          | none => simp [runAndSaveV1]
          | some cats => cases sh <;> simp [runAndSaveV1]
  · intro url device startMs nowMs env
    obtain ⟨ar, sh, host⟩ := env
    cases ar with
    | none => rfl
    | some r =>
      obtain ⟨lhrOpt⟩ := r
      cases lhrOpt with
      | none => rfl
      | some lhr =>
        obtain ⟨fu, catsOpt, ua⟩ := lhr
        cases catsOpt with
        | none => rfl
        | some cats => rfl

/-- Claim C2 counterexample: (i) a report whose `finalUrl` is missing but
whose `categories` are present passes validation and a row IS appended
(its finalUrl cell is the JS `undefined`), refuting "appended only if it
has a final URL"; (ii) a report with a `finalUrl` but no `categories`
fails validation and appends nothing, refuting "fails exactly when the
report lacks both". -/
theorem c2_counterexample :
    ((runAndSaveV1 "https://example1.com" "desktop" 1714557600000 1714557600000
      { auditResult := some
          { lhr := some
              { finalUrl := none, categories := some exampleCats,
                userAgent := some "Mozilla/5.0" },
            report := "<html>" },
        writeOk := true, sheetOk := true, s3Ok := true }).rowsSent.map
      (fun r => r[3]?)) = [some Cell.undef] ∧
    (runAndSaveV1 "https://example1.com" "desktop" 1714557600000 1714557600000
      { auditResult := some
          { lhr := some
              { finalUrl := some "https://example1.com/", categories := none,
                userAgent := some "Mozilla/5.0" },
            report := "<html>" },
        writeOk := true, sheetOk := true, s3Ok := true }).rowsSent.length
      = 0 := by
  exact ⟨rfl, rfl⟩

/-- Claim C2 (amended): a row is appended exactly when the report file
write succeeded and the audit produced a result whose `lhr` has a
`categories` field — the validation (`!result.lhr ||
!result.lhr.categories`) never inspects `finalUrl`, and when it fails no
row is appended. -/
theorem c2_amended (url device : String) (startMs nowMs : Nat) (env : EnvV1) :
    (runAndSaveV1 url device startMs nowMs env).rowsSent ≠ [] ↔
      env.writeOk = true ∧
      ∃ r lhr cats, env.auditResult = some r ∧ r.lhr = some lhr ∧
        lhr.categories = some cats := by
  obtain ⟨ar, w, sh, s3⟩ := env
  cases ar with
  | none => simp [runAndSaveV1]
  | some r =>
    obtain ⟨lhrOpt, rep⟩ := r
    cases w
    · simp [runAndSaveV1]
    · cases lhrOpt with
      | none => simp [runAndSaveV1]
      | some lhr =>
        obtain ⟨fu, catsOpt, ua⟩ := lhr
        cases catsOpt with
        | none => simp [runAndSaveV1]
        | some cats => cases sh <;> simp [runAndSaveV1]

/-- Claim C3 (code bug evaluated): in the subprocess variant the
`fs.unlink` calls of the `finally` block are commented out, so after a
successful task BOTH working files written by the lighthouse CLI —
`outputs/<startMs>.report.html` and `outputs/<startMs>.report.json` —
remain on disk (while the "Local HTML file deleted" log line still runs);
the in-process variant, by contrast, always removes its working file on
every exit path. -/
theorem c3_code_evaluation :
    (runAndSaveV2 "https://example1.com" "mobile" 1714557600000 1714557600000
      { auditResult := some { lhr := some exampleLHR }, sheetOk := true,
        host := "https://reports.example.com" }).filesRemaining =
      ["outputs/1714557600000.report.html",
       "outputs/1714557600000.report.json"] ∧
    (∀ (url device : String) (startMs nowMs : Nat) (env : EnvV1),
      (runAndSaveV1 url device startMs nowMs env).filesRemaining = []) := by
  constructor
  · rfl
  · intro url device startMs nowMs env
    obtain ⟨ar, w, sh, s3⟩ := env
    cases ar with
    | none => rfl
    | some r =>
      obtain ⟨lhrOpt, rep⟩ := r
      cases w
      · rfl
      · cases lhrOpt with
        | none => simp [runAndSaveV1, removeFile]
        | some lhr =>
          obtain ⟨fu, catsOpt, ua⟩ := lhr
          cases catsOpt with
          | none => simp [runAndSaveV1, removeFile]
          | some cats => cases sh <;> simp [runAndSaveV1, removeFile]

/-- Claim C5 counterexample: in the in-process variant a successfully
appended row has exactly 10 cells, not 11 — its `saveToGoogleSheets`
builds the `values` array without the trailing artifact link. -/
theorem c5_counterexample :
    ((runAndSaveV1 "https://example1.com" "desktop" 1714557600000 1714557600000
      { auditResult := some { lhr := some exampleLHR, report := "<html>" },
        writeOk := true, sheetOk := true, s3Ok := true }).rowsSent.map
      List.length) = [10] := by
  rfl

/-- Claim C5 (amended): the subprocess variant appends an ordered list of
exactly 11 scalar values in the fixed column order date, device, urlKey,
finalUrl, performance, accessibility, bestPractices, seo, pwa, userAgent,
artifactLink; the in-process variant appends the same columns WITHOUT the
trailing artifactLink, i.e. exactly 10 values. -/
theorem c5_amended :
    (∀ d : SheetDataV2, sheetRowV2 d =
      [Cell.str d.date, Cell.str d.device, Cell.str d.urlKey,
       optCell d.lhr.finalUrl,
       sheetCell d.lhr.categories.performance,
       sheetCell d.lhr.categories.accessibility,
       sheetCell d.lhr.categories.bestPractices,
       sheetCell d.lhr.categories.seo,
       sheetCell d.lhr.categories.pwa,
       optCell d.lhr.userAgent,
       Cell.str d.link] ∧ (sheetRowV2 d).length = 11) ∧
    (∀ (url device : String) (startMs nowMs : Nat) (env : EnvV2),
      ((runAndSaveV2 url device startMs nowMs env).rowsSent).all
        (fun r => r.length == 11) = true) ∧
    (∀ (url device : String) (startMs nowMs : Nat) (env : EnvV1),
      ((runAndSaveV1 url device startMs nowMs env).rowsSent).all
        (fun r => r.length == 10) = true) := by
  refine ⟨fun d => ⟨rfl, rfl⟩, ?_, ?_⟩
  · intro url device startMs nowMs env
    obtain ⟨ar, sh, host⟩ := env
    cases ar with
    | none => rfl
    | some r =>
      obtain ⟨lhrOpt⟩ := r
      cases lhrOpt with
      | none => rfl
      | some lhr =>
        obtain ⟨fu, catsOpt, ua⟩ := lhr
        cases catsOpt with
        | none => rfl
        | some cats => rfl
  · intro url device startMs nowMs env
    obtain ⟨ar, w, sh, s3⟩ := env
    cases ar with
    | none => rfl
    | some r =>
      obtain ⟨lhrOpt, rep⟩ := r
      cases w
      · rfl
      · cases lhrOpt with
        | none => rfl
        | some lhr =>
          obtain ⟨fu, catsOpt, ua⟩ := lhr
          cases catsOpt with
          | none => rfl
          | some cats => cases sh <;> rfl

/-- Claim C8 (confirmed): the derived storage path is
`<YYYY-MM-DD>/<ISO8601 timestamp>-<urlKey>-lighthouse-report-<device>.html`
where the timestamp is `startedAt` and the date prefix comes from the
invocation clock (the archive day), not from `startedAt`; the upload key
produced by a successful in-process task has exactly this form, and on the
spec's concrete example (startedAt = 2024-05-01T10:00:00Z, archive day
2024-05-01) the path is the stated string. -/
theorem c8_storage_path :
    (∀ (nowMs startMs : Nat) (urlKey device : String),
      s3PathFor nowMs (fileNameFor (toISOString startMs) urlKey device) =
        formatDay nowMs ++ "/" ++ (toISOString startMs ++ "-" ++ urlKey ++
          "-lighthouse-report-" ++ device ++ ".html")) ∧
    (∀ (url device rep : String) (startMs nowMs : Nat)
        (fu ua : Option String) (cats : RawCategories) (s3Ok : Bool),
      (runAndSaveV1 url device startMs nowMs
        { auditResult := some
            { lhr := some
                { finalUrl := fu, categories := some cats, userAgent := ua },
              report := rep },
          writeOk := true, sheetOk := true, s3Ok := s3Ok }).uploadKey =
        some (s3PathFor nowMs
          (fileNameFor (toISOString startMs) (hashStringTo12Digits url)
            device))) ∧
    s3PathFor 1714557600000
        (fileNameFor (toISOString 1714557600000) "ab12cd34ef56" "mobile") =
      "2024-05-01/2024-05-01T10:00:00.000Z-ab12cd34ef56-lighthouse-report-mobile.html" := by
  refine ⟨fun nowMs startMs urlKey device => rfl,
    fun url device rep startMs nowMs fu ua cats s3Ok => rfl, ?_⟩
  decide

/-- Claim C9 (confirmed): for every report that has a `categories`
mapping, the built row's five category cells are exactly the `?? "N/A"`
projections of the raw categories, an absent category projects to the
sentinel `"N/A"`, and a report missing only `pwa` still yields exactly one
appended row whose pwa cell is `"N/A"` (record building does not fail). -/
theorem c9_absent_category_na (url device rep : String) (startMs nowMs : Nat)
    (fu ua : Option String) (cats : RawCategories) (sheetOk s3Ok : Bool) :
    ((runAndSaveV1 url device startMs nowMs
      { auditResult := some
          { lhr := some
              { finalUrl := fu, categories := some cats, userAgent := ua },
            report := rep },
        writeOk := true, sheetOk := sheetOk, s3Ok := s3Ok }).rowsSent.map
      (fun r => (r[4]?, r[5]?, r[6]?, r[7]?, r[8]?))) =
      [(some (naScore cats.performance), some (naScore cats.accessibility),
        some (naScore cats.bestPractices), some (naScore cats.seo),
        some (naScore cats.pwa))] ∧
    naScore none = Cell.str "N/A" ∧
    ((runAndSaveV1 url device startMs nowMs
      { auditResult := some
          { lhr := some
              { finalUrl := fu,
                categories := some { cats with pwa := none },
                userAgent := ua },
            report := rep },
        writeOk := true, sheetOk := sheetOk, s3Ok := s3Ok }).rowsSent.map
      (fun r => r[8]?)) = [some (Cell.str "N/A")] := by
  refine ⟨?_, rfl, ?_⟩
  · cases sheetOk <;>
      simp [runAndSaveV1, sheetRowV1, wrapLHR, sheetCell]
  · cases sheetOk <;>
      simp [runAndSaveV1, sheetRowV1, wrapLHR, sheetCell, naScore]

/-- Claim C10 (confirmed): a category that is present with the numeric
score `q` — in particular `q = 0` — contributes the number itself to the
appended row, never the sentinel: the `?? "N/A"` substitution fires
exactly when the category object or its `score` field is null/undefined,
and `0` is not such a value. -/
theorem c10_zero_score (url device rep : String) (startMs nowMs : Nat)
    (fu ua : Option String) (cats : RawCategories) (sheetOk s3Ok : Bool)
    (q : ℚ) :
    ((runAndSaveV1 url device startMs nowMs
      { auditResult := some
          { lhr := some
              { finalUrl := fu,
                categories := some
                  { cats with performance := some { score := some q } },
                userAgent := ua },
            report := rep },
        writeOk := true, sheetOk := sheetOk, s3Ok := s3Ok }).rowsSent.map
      (fun r => r[4]?)) = [some (Cell.num q)] ∧
    (∀ c : Option RawCategory,
      naScore c = Cell.str "N/A" ↔ c = none ∨ c = some { score := none }) ∧
    Cell.num 0 ≠ Cell.str "N/A" := by
  refine ⟨?_, ?_, by simp⟩
  · cases sheetOk <;>
      simp [runAndSaveV1, sheetRowV1, wrapLHR, sheetCell, naScore]
  · intro c
    match c with
    | none => simp [naScore]
    | some { score := none } => simp [naScore]
    | some { score := some q' } => simp [naScore]

/-! ### Helpers for the IdentityDeriver claim -/

/-- The character class `[0-9a-z]`. -/
def isBase36Char (c : Char) : Bool :=
  decide (('0' ≤ c ∧ c ≤ '9') ∨ ('a' ≤ c ∧ c ≤ 'z'))

lemma base36DigitChar_mem (d : Nat) : base36DigitChar d ∈ alphabet36 := by
  unfold base36DigitChar
  cases h : alphabet36.get? d with
  | none => decide
  | some c => exact List.get?_mem h

lemma alphabet36_chars : ∀ c ∈ alphabet36, isBase36Char c = true := by decide

lemma toBase36Aux_mem (fuel n : Nat) :
    ∀ c ∈ toBase36Aux fuel n, c ∈ alphabet36 := by
  induction fuel generalizing n with
  | zero => intro c hc; simp [toBase36Aux] at hc
  | succ k ih =>
    intro c hc
    simp only [toBase36Aux] at hc
    by_cases h : n = 0
    · simp [h] at hc
    · rw [if_neg h] at hc
      rcases List.mem_append.mp hc with h1 | h1
      · exact ih _ c h1
      · obtain rfl := List.mem_singleton.mp h1
        exact base36DigitChar_mem _

lemma toBase36_chars (n : Nat) : ∀ c ∈ (toBase36 n).toList, c ∈ alphabet36 := by
  intro c hc
  unfold toBase36 at hc
  by_cases h : n = 0
  · rw [if_pos h] at hc
    obtain rfl : c = '0' := by simpa using hc
    decide
  · rw [if_neg h] at hc
    exact toBase36Aux_mem n n c (by simpa using hc)

/-- Claim C7 (confirmed): `hashStringTo12Digits` is total over strings and
always returns exactly 12 characters drawn from `[0-9a-z]`; being a pure
function of its input it is deterministic across calls. -/
theorem c7_derive_key (u : String) :
    (hashStringTo12Digits u).length = 12 ∧
    (hashStringTo12Digits u).toList.all isBase36Char = true ∧
    hashStringTo12Digits u = hashStringTo12Digits u := by
  refine ⟨?_, ?_, rfl⟩
  · show (String.mk (List.replicate _ '0' ++ _)).length = 12
    have ht : ((toBase36 (sha256Nat u)).toList.take 12).length ≤ 12 := by
      exact List.length_take_le 12 (toBase36 (sha256Nat u)).toList
    have hmk : ∀ l : List Char, (String.mk l).length = l.length := fun l => rfl
    rw [hmk, List.length_append, List.length_replicate]
    omega
  · rw [List.all_eq_true]
    intro c hc
    have hc' : c ∈ List.replicate (12 - ((toBase36 (sha256Nat u)).toList.take 12).length) '0' ++
        (toBase36 (sha256Nat u)).toList.take 12 := by
      simpa [hashStringTo12Digits, padStart12] using hc
    rcases List.mem_append.mp hc' with h1 | h1
    · obtain rfl := List.eq_of_mem_replicate h1
      decide
    · exact alphabet36_chars c
        (toBase36_chars _ c (List.take_subset 12 _ h1))

end LighthouseWorker







